import Mathlib

/-!
Shallow embedding of the scene-processing workflow of the NEXT-Gini_AI
repository (Inngest background functions, the D-ID webhook route and the
script-validation helper), together with theorems settling the frozen
claims about it.

Modelling conventions:
* Database rows (Project / Scene / Asset / RenderJob) are Lean structures;
  the JSON `metadata` columns are modelled by the individual fields the
  workflow code actually reads or writes.
* Each Inngest function becomes a pure function from the database state
  (plus the event payload and the responses of external collaborators,
  passed as explicit arguments) to an `Outcome`: the database after the
  run, the list of events the run sent (`step.sendEvent` / `inngest.send`,
  in program order), and `Except String α` for the returned value or the
  thrown error.  A thrown error keeps the database mutations of the steps
  that already ran, matching Inngest's durable-step semantics.
* External collaborators (ElevenLabs TTS, D-ID, Veo, Supabase storage) are
  out of scope per the spec; their responses are arguments (`TalkStatus`,
  `VeoStatus`, an `upload : String → String` oracle mapping a storage path
  to the public URL).
* `step.waitForEvent` results are arguments of type `Option Event`
  (`none` = timeout); the Inngest API returns `null` on timeout instead of
  throwing, which is what the source relies on.
-/

namespace GiniAI

/-- One Inngest event (name plus the payload fields the claims need). -/
structure Event where
  name : String
  sceneId : Option Nat := none
  projectId : Option Nat := none
  deriving Repr, DecidableEq

/-- A manifest entry of the composition metadata (`sceneData` in
`videoCompositor`). -/
structure ManifestEntry where
  sceneNumber : Nat
  duration : Nat
  audioUrl : String
  avatarUrl : String
  backgroundUrl : String
  backgroundType : String
  deriving Repr, DecidableEq

/-- The pieces of the Project's JSON `metadata` column that the embedded
functions read or write. -/
structure ProjectMetadata where
  compositionScenes : Option (List ManifestEntry) := none
  compositionTotalDuration : Option Nat := none
  avatarDesignError : Option String := none
  fallbackToPreset : Bool := false
  avatarDesignAssetId : Option Nat := none
  deriving Repr, DecidableEq

/-- A Project row. -/
structure Project where
  id : Nat
  status : String
  avatarDesignMode : String := "preset"
  avatarDesignStatus : String := "pending"
  hasAvatarDesignSettings : Bool := true
  metadata : ProjectMetadata := {}
  deriving Repr, DecidableEq

/-- A Scene row. -/
structure Scene where
  id : Nat
  projectId : Nat
  sceneNumber : Nat
  position : Nat
  script : String := ""
  duration : Nat := 8
  ttsStatus : String := "pending"
  avatarStatus : String := "pending"
  backgroundStatus : String := "pending"
  audioAssetId : Option Nat := none
  avatarAssetId : Option Nat := none
  backgroundAssetId : Option Nat := none
  deriving Repr, DecidableEq

/-- An Asset row.  `sceneId` is the top-level column (set by the webhook
route and `veoVideoPolling`); `metadataSceneId` models the `sceneId` key
some creators only put into the JSON metadata. -/
structure Asset where
  id : Nat
  projectId : Nat
  sceneId : Option Nat := none
  kind : String
  assetType : String
  url : String
  storagePath : String := ""
  metadataSceneId : Option Nat := none
  deriving Repr, DecidableEq

/-- A RenderJob row.  `traceId` is the column the D-ID webhook route looks
jobs up by; `paramsSceneId` / `paramsResultUrl` model the `params` JSON
fields it reads and writes; `attempt` models `metadata.attempt`. -/
structure RenderJob where
  id : Nat
  projectId : Nat
  sceneId : Nat
  externalId : String
  traceId : Option String := none
  provider : String := ""
  status : String
  errorMessage : Option String := none
  paramsSceneId : Option Nat := none
  paramsResultUrl : Option String := none
  attempt : Nat := 0
  deriving Repr, DecidableEq

/-- The persistent store. `nextAssetId` / `nextRenderJobId` model the id
sequence for created rows. -/
structure DB where
  projects : List Project := []
  scenes : List Scene := []
  assets : List Asset := []
  renderJobs : List RenderJob := []
  nextAssetId : Nat := 1
  nextRenderJobId : Nat := 1
  deriving Repr, DecidableEq

/-- Result of one workflow invocation: database after the run, events sent
during the run (in order), and the returned value or thrown error. -/
structure Outcome (α : Type) where
  db : DB
  events : List Event
  result : Except String α
  deriving Repr

/-- `prisma.scene.findUnique({where: {id}})`. -/
def findScene (db : DB) (sceneId : Nat) : Option Scene :=
  db.scenes.find? (fun s => s.id = sceneId)

/-- `prisma.project.findUnique({where: {id}})`. -/
def findProject (db : DB) (projectId : Nat) : Option Project :=
  db.projects.find? (fun p => p.id = projectId)

/-- `prisma.asset.findUnique({where: {id}})` (used to model the relation
`include`s such as `scene.audioAsset`). -/
def findAsset (db : DB) (assetId : Nat) : Option Asset :=
  db.assets.find? (fun a => a.id = assetId)

/-- `prisma.scene.update({where: {id}})`. -/
def updateScene (db : DB) (sceneId : Nat) (f : Scene → Scene) : DB :=
  { db with scenes := db.scenes.map (fun s => if s.id = sceneId then f s else s) }

/-- `prisma.project.update({where: {id}})`. -/
def updateProject (db : DB) (projectId : Nat) (f : Project → Project) : DB :=
  { db with projects := db.projects.map (fun p => if p.id = projectId then f p else p) }

/-- `prisma.renderJob.updateMany({where: {sceneId, externalId}})`. -/
def updateRenderJobs (db : DB) (sceneId : Nat) (externalId : String)
    (f : RenderJob → RenderJob) : DB :=
  let g : RenderJob → RenderJob :=
    fun j => if j.sceneId = sceneId ∧ j.externalId = externalId then f j else j
  { db with renderJobs := db.renderJobs.map g }

/-- `prisma.renderJob.update({where: {id}})`. -/
def updateRenderJobById (db : DB) (jobId : Nat) (f : RenderJob → RenderJob) : DB :=
  { db with renderJobs := db.renderJobs.map (fun j => if j.id = jobId then f j else j) }

/-- `prisma.asset.create` (the fresh row gets `nextAssetId`). -/
def createAsset (db : DB) (a : Nat → Asset) : Asset × DB :=
  let asset := a db.nextAssetId
  (asset, { db with assets := db.assets ++ [asset], nextAssetId := db.nextAssetId + 1 })

/-- `prisma.renderJob.create`. -/
def createRenderJob (db : DB) (j : Nat → RenderJob) : RenderJob × DB :=
  let job := j db.nextRenderJobId
  (job, { db with renderJobs := db.renderJobs ++ [job],
                  nextRenderJobId := db.nextRenderJobId + 1 })

/-!
## `ttsGenerator` (src/lib/inngest/functions/ttsGenerator.ts)

Listens on `tts/generation.requested`.  The ElevenLabs call and the
storage upload are external; the upload is modelled by the `upload`
oracle (storage path ↦ public URL).  A provider failure would throw
before any of the modelled writes, so only the successful path carries
claim-relevant behaviour.  Note that the function contains **no**
`step.sendEvent` / `inngest.send` at all.
-/

def ttsGenerator (db : DB) (sceneId : Nat) (upload : String → String) :
    Outcome Nat :=
  match findScene db sceneId with
  | none => ⟨db, [], .error ("Scene " ++ toString sceneId ++ " not found")⟩
  | some scene =>
    -- step "update-tts-status-generating"
    let db := updateScene db sceneId (fun s => { s with ttsStatus := "generating" })
    -- steps "generate-tts" and "upload-audio"
    let storagePath := "projects/" ++ toString scene.projectId ++ "/audio/scene_"
      ++ toString scene.sceneNumber ++ "_audio.mp3"
    let audioUrl := upload storagePath
    -- step "create-asset"
    let (asset, db) := createAsset db (fun i =>
      { id := i, projectId := scene.projectId, kind := "audio", assetType := "audio",
        url := audioUrl, storagePath := storagePath,
        metadataSceneId := some scene.id : Asset })
    -- step "update-scene-audio-asset"
    let db := updateScene db sceneId (fun s =>
      { s with audioAssetId := some asset.id, ttsStatus := "completed" })
    ⟨db, [], .ok asset.id⟩

/-!
## `avatarPolling` (src/lib/inngest/functions/avatarPolling.ts)

Listens on `avatar/polling.requested`.  The D-ID status check
(`getTalkStatus`) is external and passed in as `talkStatus`.
-/

/-- Response of `getTalkStatus` (the D-ID adapter). -/
structure TalkStatus where
  status : String
  resultUrl : Option String := none
  error : Option String := none
  deriving Repr, DecidableEq

def avatarPolling (db : DB) (sceneId : Nat) (talkId : String)
    (maxAttempts currentAttempt : Nat) (talkStatus : TalkStatus)
    (upload : String → String) : Outcome Bool :=
  -- step "update-render-job"
  let db := updateRenderJobs db sceneId talkId (fun j =>
    { j with status := if talkStatus.status = "done" then "completed" else "processing",
             attempt := currentAttempt })
  if talkStatus.status = "done" ∧ talkStatus.resultUrl ≠ none then
    -- completion: download and store the video
    match findScene db sceneId with
    | none => ⟨db, [], .error ("Scene " ++ toString sceneId ++ " not found")⟩
    | some scene =>
      -- step "save-avatar-video"
      let storagePath := "projects/" ++ toString scene.projectId ++ "/avatars/scene_"
        ++ toString scene.sceneNumber ++ "_avatar.mp4"
      let videoUrl := upload storagePath
      -- step "create-avatar-asset" (sceneId only in the JSON metadata here)
      let (asset, db) := createAsset db (fun i =>
        { id := i, projectId := scene.projectId, kind := "avatar_video",
          assetType := "avatar_video", url := videoUrl, storagePath := storagePath,
          metadataSceneId := some scene.id : Asset })
      -- step "update-scene-avatar-asset"
      let db := updateScene db sceneId (fun s =>
        { s with avatarAssetId := some asset.id, avatarStatus := "completed" })
      ⟨db, [], .ok true⟩
  else if talkStatus.status = "error" then
    -- step "mark-avatar-failed" followed by a throw
    let db := updateScene db sceneId (fun s => { s with avatarStatus := "failed" })
    ⟨db, [], .error ("D-ID Talk " ++ talkId ++ " failed: "
      ++ talkStatus.error.getD "undefined")⟩
  else if currentAttempt < maxAttempts then
    -- step "retry-polling": re-schedule with currentAttempt + 1
    ⟨db, [{ name := "avatar/polling.requested", sceneId := some sceneId }], .ok false⟩
  else
    -- step "mark-avatar-timeout" followed by a throw
    let db := updateScene db sceneId (fun s => { s with avatarStatus := "failed" })
    ⟨db, [], .error ("D-ID Talk " ++ talkId ++ " timeout after "
      ++ toString maxAttempts ++ " attempts")⟩

/-- Result of running a self-rescheduling polling chain to completion:
how many status checks were performed, the final database, and the final
invocation's result. -/
structure ChainResult where
  checks : Nat
  db : DB
  result : Except String Bool
  deriving Repr

/-- A polling invocation returning `.ok false` is the one that has sent a
fresh self-rescheduling event (the `success: false, status: "polling"`
return of the source); every other result ends the chain. -/
def isRetry : Except String Bool → Bool
  | .ok false => true
  | _ => false

/-- The chain of `avatarPolling` invocations: an invocation whose result
is a retry has sent a fresh `avatar/polling.requested` event with
`currentAttempt + 1`, which triggers the next invocation.  `statusAt n` is
the provider's answer to the status check of attempt `n`.  `fuel` bounds
the recursion; every run started at attempt 1 with `fuel = maxAttempts`
terminates within the fuel (proved below). -/
def avatarPollingChain (sceneId : Nat) (talkId : String) (maxAttempts : Nat)
    (statusAt : Nat → TalkStatus) (upload : String → String) :
    Nat → Nat → DB → ChainResult
  | 0, _, db => ⟨0, db, .ok false⟩
  | fuel + 1, currentAttempt, db =>
    let out := avatarPolling db sceneId talkId maxAttempts currentAttempt
      (statusAt currentAttempt) upload
    if isRetry out.result then
      let rest := avatarPollingChain sceneId talkId maxAttempts statusAt upload
        fuel (currentAttempt + 1) out.db
      ⟨rest.checks + 1, rest.db, rest.result⟩
    else ⟨1, out.db, out.result⟩

/-!
## `veoVideoPolling` (src/lib/inngest/functions/veoVideoPolling.ts)

Listens on `veo/polling.requested`.  `checkVeoOperation` is external and
passed in as `veoStatus`; `videoBuffer` models whether the response
carried the video bytes.
-/

/-- Response of `checkVeoOperation` (the Veo long-running-operation
adapter). -/
structure VeoStatus where
  done : Bool
  error : Option String := none
  videoBuffer : Bool := false
  deriving Repr, DecidableEq

def veoVideoPolling (db : DB) (sceneId : Nat) (operationName : String)
    (maxAttempts currentAttempt : Nat) (veoStatus : VeoStatus)
    (upload : String → String) : Outcome Bool :=
  if veoStatus.done = false then
    if currentAttempt ≥ maxAttempts then
      -- step "mark-render-job-failed"
      let db := updateRenderJobs db sceneId operationName (fun j =>
        { j with status := "failed",
                 errorMessage := some ("Polling timeout after "
                   ++ toString maxAttempts ++ " attempts") })
      -- step "mark-scene-background-failed" followed by a throw
      let db := updateScene db sceneId (fun s => { s with backgroundStatus := "failed" })
      ⟨db, [], .error ("Veo polling timeout after " ++ toString maxAttempts
        ++ " attempts")⟩
    else
      -- step "trigger-next-polling": re-schedule with currentAttempt + 1
      ⟨db, [{ name := "veo/polling.requested", sceneId := some sceneId }], .ok false⟩
  else match veoStatus.error with
  | some e =>
    -- step "mark-render-job-error"
    let db := updateRenderJobs db sceneId operationName (fun j =>
      { j with status := "failed", errorMessage := some e })
    -- step "mark-scene-background-error" followed by a throw
    let db := updateScene db sceneId (fun s => { s with backgroundStatus := "failed" })
    ⟨db, [], .error ("Veo operation " ++ operationName ++ " failed: " ++ e)⟩
  | none =>
    if veoStatus.videoBuffer = false then
      ⟨db, [], .error "Veo operation succeeded but no video buffer returned"⟩
    else match findScene db sceneId with
    | none => ⟨db, [], .error ("Scene " ++ toString sceneId ++ " not found")⟩
    | some scene =>
      -- step "upload-video-to-storage"
      let storagePath := "projects/" ++ toString scene.projectId
        ++ "/backgrounds/scene_" ++ toString scene.sceneNumber ++ "_background.mp4"
      let videoUrl := upload storagePath
      -- step "create-background-video-asset"
      let (asset, db) := createAsset db (fun i =>
        { id := i, projectId := scene.projectId, sceneId := some sceneId,
          kind := "background_video", assetType := "video", url := videoUrl,
          storagePath := storagePath, metadataSceneId := some scene.id : Asset })
      -- step "update-scene-background-video-asset"
      let db := updateScene db sceneId (fun s =>
        { s with backgroundAssetId := some asset.id, backgroundStatus := "completed" })
      -- step "update-render-job-completed"
      let db := updateRenderJobs db sceneId operationName (fun j =>
        { j with status := "completed", attempt := currentAttempt })
      -- step "background-completed-video"
      ⟨db, [{ name := "background/completed", sceneId := some sceneId,
              projectId := some scene.projectId }], .ok true⟩

/-- The chain of `veoVideoPolling` invocations, analogous to
`avatarPollingChain`. -/
def veoPollingChain (sceneId : Nat) (operationName : String) (maxAttempts : Nat)
    (statusAt : Nat → VeoStatus) (upload : String → String) :
    Nat → Nat → DB → ChainResult
  | 0, _, db => ⟨0, db, .ok false⟩
  | fuel + 1, currentAttempt, db =>
    let out := veoVideoPolling db sceneId operationName maxAttempts currentAttempt
      (statusAt currentAttempt) upload
    if isRetry out.result then
      let rest := veoPollingChain sceneId operationName maxAttempts statusAt upload
        fuel (currentAttempt + 1) out.db
      ⟨rest.checks + 1, rest.db, rest.result⟩
    else ⟨1, out.db, out.result⟩

/-!
## `sceneProcessor` (src/lib/inngest/functions/sceneProcessor.ts)

The per-scene orchestrator, listening on `scene/process.requested`.
Each `step.waitForEvent` outcome is an argument (`none` = the wait timed
out).  The source never inspects any of the wait results: the avatar-design
wait is wrapped in a `try`/`catch` whose catch only logs, and the tts /
avatar / background waits are not even assigned.
-/

/-- `orderBy: { position: "asc" }` on a project's scenes. -/
def sortByPosition (l : List Scene) : List Scene :=
  l.insertionSort (fun a b => a.position ≤ b.position)

def sceneProcessor (db : DB) (projectId sceneId : Nat)
    (avatarDesignWait ttsWait avatarWait backgroundWait : Option Event) :
    Outcome Bool :=
  -- step "fetch-scene" (include project and the project's scenes by position)
  match findScene db sceneId with
  | none => ⟨db, [], .error ("Scene not found: " ++ toString sceneId)⟩
  | some scene =>
    match findProject db scene.projectId with
    | none => ⟨db, [], .error ("Scene not found: " ++ toString sceneId)⟩
    | some sceneProject =>
      -- step "check-avatar-design-status"
      let needsAvatarWait : Bool :=
        if sceneProject.avatarDesignMode ≠ "custom" then false
        else
          match findProject db projectId with
          | some p => decide (p.avatarDesignStatus ≠ "completed")
          | none => true
      -- wait "wait-for-avatar-design" (timeout "3m"); the result — and in
      -- particular a timeout — is swallowed and execution continues
      let _ := if needsAvatarWait then avatarDesignWait else none
      -- step "trigger-tts"
      let ev₁ : Event :=
        { name := "tts/generation.requested", sceneId := some sceneId,
          projectId := some projectId }
      -- wait "wait-for-tts" (timeout "5m"); result unused
      let _ := ttsWait
      -- step "trigger-avatar"
      let ev₂ : Event :=
        { name := "avatar/generation.requested", sceneId := some sceneId,
          projectId := some projectId }
      -- wait "wait-for-avatar" (timeout "5m"); result unused
      let _ := avatarWait
      -- step "trigger-background"
      let ev₃ : Event :=
        { name := "background/generation.requested", sceneId := some sceneId,
          projectId := some projectId }
      -- wait "wait-for-background" (timeout "15m"); result unused
      let _ := backgroundWait
      -- sleep "rate-limit" ("2s"), then advance
      let projScenes := sortByPosition
        (db.scenes.filter (fun s => s.projectId = scene.projectId))
      let currentIndex := projScenes.findIdx (fun s => s.id = sceneId)
      match projScenes.get? (currentIndex + 1) with
      | some nextScene =>
        -- step "trigger-next-scene"
        ⟨db, [ev₁, ev₂, ev₃,
              { name := "scene/process.requested", sceneId := some nextScene.id,
                projectId := some projectId }], .ok true⟩
      | none =>
        -- step "trigger-video-compositor"
        ⟨db, [ev₁, ev₂, ev₃,
              { name := "video/compose.requested", projectId := some projectId }],
          .ok true⟩

/-!
## `videoCompositor` (src/lib/inngest/functions/videoCompositor.ts)

The composition trigger.  Its Inngest trigger is
`{ event: "video/composition.requested" }`; that name is recorded here so
it can be compared with the hand-off event `sceneProcessor` sends.
-/

/-- The event name `videoCompositor` is subscribed to (line 6 of
videoCompositor.ts). -/
def videoCompositorTriggerEvent : String := "video/composition.requested"

/-- `orderBy: { sceneNumber: "asc" }` on a project's scenes. -/
def sortBySceneNumber (l : List Scene) : List Scene :=
  l.insertionSort (fun a b => a.sceneNumber ≤ b.sceneNumber)

/-- `scene.audioAsset?.url || ""` (and the avatar/background analogues). -/
def assetUrlOrEmpty (db : DB) (assetId : Option Nat) : String :=
  match assetId.bind (findAsset db) with
  | some a => a.url
  | none => ""

/-- `scene.backgroundAsset?.kind || "background_image"`. -/
def backgroundKindOrDefault (db : DB) (assetId : Option Nat) : String :=
  match assetId.bind (findAsset db) with
  | some a => if a.kind = "" then "background_image" else a.kind
  | none => "background_image"

def videoCompositor (db : DB) (projectId : Nat) : Outcome Nat :=
  -- step "fetch-project-scenes"
  match findProject db projectId with
  | none => ⟨db, [], .error ("Project " ++ toString projectId ++ " not found")⟩
  | some _project =>
    let scenes := sortBySceneNumber
      (db.scenes.filter (fun s => s.projectId = projectId))
    -- step "validate-scenes-ready"
    let incompleteScenes := scenes.filter (fun scene =>
      scene.ttsStatus ≠ "completed" ∨ scene.avatarStatus ≠ "completed"
        ∨ scene.backgroundStatus ≠ "completed")
    if incompleteScenes.length > 0 then
      ⟨db, [], .error (toString incompleteScenes.length
        ++ " scenes are not ready for composition")⟩
    else if scenes.length = 0 then
      ⟨db, [], .error "No scenes found for composition"⟩
    else
      -- step "update-project-status-rendering"
      let db := updateProject db projectId (fun p => { p with status := "rendering" })
      -- step "prepare-scene-data"
      let sceneData : List ManifestEntry := scenes.map (fun scene =>
        { sceneNumber := scene.sceneNumber, duration := scene.duration,
          audioUrl := assetUrlOrEmpty db scene.audioAssetId,
          avatarUrl := assetUrlOrEmpty db scene.avatarAssetId,
          backgroundUrl := assetUrlOrEmpty db scene.backgroundAssetId,
          backgroundType := backgroundKindOrDefault db scene.backgroundAssetId })
      -- step "save-composition-metadata"
      let totalDuration := scenes.foldl (fun sum scene => sum + scene.duration) 0
      let db := updateProject db projectId (fun p =>
        { p with metadata := { p.metadata with
            compositionScenes := some sceneData,
            compositionTotalDuration := some totalDuration } })
      -- step "trigger-video-render"
      ⟨db, [{ name := "video/render.requested", projectId := some projectId }],
        .ok sceneData.length⟩

/-!
## `avatarGenerator` (src/lib/inngest/functions/avatarGenerator.ts)

Listens on `avatar/generation.requested`.  `createTalk` (the D-ID submit
call) is external; the talk id it would return is the `talkId` argument.
The prerequisite checks (`!scene.audioAsset`, `!audioUrl`) throw before
any write or submit happens.
-/

def avatarGenerator (db : DB) (sceneId : Nat) (talkId : String)
    (presetAvatarUrl : String) : Outcome String :=
  -- step "fetch-scene-data" (include project, its avatar_design assets,
  -- and the scene's audioAsset)
  match findScene db sceneId with
  | none => ⟨db, [], .error ("Scene " ++ toString sceneId ++ " not found")⟩
  | some scene =>
    match scene.audioAssetId.bind (findAsset db) with
    | none => ⟨db, [], .error ("Audio asset not found for scene " ++ toString sceneId)⟩
    | some audioAsset =>
      let audioUrl := audioAsset.url
      if audioUrl = "" then
        ⟨db, [], .error ("Audio URL not found for scene " ++ toString sceneId)⟩
      else
        match findProject db scene.projectId with
        | none => ⟨db, [], .error ("Scene " ++ toString sceneId ++ " not found")⟩
        | some project =>
          -- step "determine-avatar-url"
          let designAssets := db.assets.filter (fun a =>
            a.projectId = scene.projectId ∧ a.kind = "avatar_design")
          let avatarImageUrl :=
            if project.avatarDesignMode = "custom" ∧ designAssets.length > 0 then
              ((designAssets.head?).map (fun a => a.url)).getD presetAvatarUrl
            else presetAvatarUrl
          -- step "update-avatar-status-generating"
          let db := updateScene db sceneId (fun s => { s with avatarStatus := "generating" })
          -- step "create-did-talk" is the external submit; then "create-render-job"
          let (_, db) := createRenderJob db (fun i =>
            { id := i, projectId := scene.projectId, sceneId := scene.id,
              externalId := talkId, provider := "did", status := "processing" : RenderJob })
          let _ := avatarImageUrl
          -- step "start-avatar-polling"
          ⟨db, [{ name := "avatar/polling.requested", sceneId := some scene.id }],
            .ok talkId⟩

/-!
## `avatarDesignGenerator` (src/unnamed/part_013)

Listens on `avatar-design/generation.requested`.  The Imagen call
(`generateAvatarDesign`) is external; its outcome is the `genResult`
argument.  A thrown generation error carries the JS error's `message`,
`code` and `status` fields.
-/

/-- The error object a failed `generateAvatarDesign` call throws. -/
structure GenError where
  message : String
  code : Option Nat := none
  status : Option String := none
  deriving Repr, DecidableEq

/-- `haystack.includes(needle)` on JS strings, as a character-list
containment check. -/
def strIncludes (haystack needle : String) : Bool :=
  (List.range (haystack.data.length + 1)).any
    (fun i => needle.data = (haystack.data.drop i).take needle.data.length)

def avatarDesignGenerator (db : DB) (projectId : Nat)
    (genResult : Except GenError Unit) (upload : String → String) :
    Outcome Nat :=
  -- step "fetch-project"
  match findProject db projectId with
  | none => ⟨db, [], .error ("Project " ++ toString projectId ++ " not found")⟩
  | some project =>
    if project.avatarDesignMode ≠ "custom" then
      ⟨db, [], .error ("Project " ++ toString projectId ++ " is not in custom avatar mode")⟩
    else if project.hasAvatarDesignSettings = false then
      ⟨db, [], .error ("Project " ++ toString projectId ++ " has no avatar design settings")⟩
    else
      -- step "update-avatar-design-status-generating"
      let db := updateProject db projectId (fun p =>
        { p with avatarDesignStatus := "generating" })
      -- step "generate-and-upload-avatar-image"
      match genResult with
      | .error e =>
        let shouldFallback :=
          strIncludes e.message "Quota exceeded"
          || strIncludes e.message "RESOURCE_EXHAUSTED"
          || strIncludes e.message "not found"
          || strIncludes e.message "NOT_FOUND"
          || e.code == some 404
          || e.code == some 429
          || e.status == some "NOT_FOUND"
        if shouldFallback then
          let errorReason :=
            if e.code = some 404 ∨ e.status = some "NOT_FOUND" then "Model not found"
            else if e.code = some 429 then "Quota exceeded"
            else "API error"
          let db := updateProject db projectId (fun p =>
            { p with avatarDesignStatus := "failed",
                     metadata := { p.metadata with
                       avatarDesignError := some errorReason,
                       fallbackToPreset := true } })
          ⟨db, [], .error ("Avatar design generation failed: " ++ errorReason
            ++ ". Project will use preset avatar.")⟩
        else
          -- transient errors are re-thrown for the Inngest retry mechanism
          ⟨db, [], .error e.message⟩
      | .ok _ =>
        let storagePath := "projects/" ++ toString projectId ++ "/avatars/avatar_design.png"
        let imageUrl := upload storagePath
        -- step "create-avatar-design-asset"
        let (asset, db) := createAsset db (fun i =>
          { id := i, projectId := projectId, kind := "avatar_design",
            assetType := "avatar_design", url := imageUrl,
            storagePath := storagePath : Asset })
        -- step "update-avatar-design-status-completed"
        let db := updateProject db projectId (fun p =>
          { p with avatarDesignStatus := "completed",
                   metadata := { p.metadata with avatarDesignAssetId := some asset.id } })
        -- step "notify-avatar-design-completed"
        ⟨db, [{ name := "avatar-design/completed", projectId := some projectId }],
          .ok asset.id⟩

/-!
## D-ID webhook route (src/app/api/webhooks/did/route.ts, `POST`)

`token` is the bearer token extracted from the `authorization` header
(`none` when the header is absent); `expectedToken` is
`process.env.WEBHOOK_SHARED_TOKEN`.  The JS guard
`if (!token || token !== expectedToken)` also rejects an empty-string
token (falsy).  The handler looks the RenderJob up by `traceId`.
-/

/-- The webhook request body `{id, status, result_url, error}`. -/
structure WebhookBody where
  id : String
  status : String
  resultUrl : Option String := none
  errorDescription : Option String := none
  deriving Repr, DecidableEq

/-- The HTTP responses the route can produce. -/
inductive HttpResponse where
  | unauthorized   -- 401 "Unauthorized"
  | notFound       -- 404 {error: "RenderJob not found"}
  | received       -- 200 {received: true}
  deriving Repr, DecidableEq

def didWebhookPOST (db : DB) (token : Option String) (expectedToken : String)
    (body : WebhookBody) : DB × List Event × HttpResponse :=
  let tokenOk : Bool :=
    match token with
    | none => false
    | some t => ¬ (t = "") ∧ t = expectedToken
  if tokenOk = false then (db, [], .unauthorized)
  else
    match db.renderJobs.find? (fun j => j.traceId = some body.id) with
    | none => (db, [], .notFound)
    | some renderJob =>
      if body.status = "done" then
        let db := updateRenderJobById db renderJob.id (fun j =>
          { j with status := "completed", paramsResultUrl := body.resultUrl })
        match renderJob.paramsSceneId with
        | none => (db, [], .received)
        | some sceneId =>
          let db := updateScene db sceneId (fun s => { s with avatarStatus := "completed" })
          let (_, db) := createAsset db (fun i =>
            { id := i, projectId := renderJob.projectId, sceneId := some sceneId,
              kind := "avatar_video", assetType := "avatar_video",
              url := body.resultUrl.getD "", storagePath := "projects/"
                ++ toString renderJob.projectId ++ "/scenes/" ++ toString sceneId
                ++ "/avatar.mp4" : Asset })
          (db, [{ name := "avatar/completed", sceneId := some sceneId,
                  projectId := some renderJob.projectId }], .received)
      else if body.status = "error" ∨ body.status = "rejected" then
        let db := updateRenderJobById db renderJob.id (fun j =>
          { j with status := "failed",
                   errorMessage := some (body.errorDescription.getD "D-ID processing failed") })
        match renderJob.paramsSceneId with
        | none => (db, [], .received)
        | some sceneId =>
          let db := updateScene db sceneId (fun s => { s with avatarStatus := "failed" })
          (db, [{ name := "avatar/failed", sceneId := some sceneId,
                  projectId := some renderJob.projectId }], .received)
      else (db, [], .received)

/-!
## `validateAndTruncateScript` (src/unnamed/part_014, inside
`scriptGenerator`'s "create-scenes" step)

Character-level model of the JS string operations.  A JS string's
`.length` counts UTF-16 code units; every character occurring in the
scripts this repository handles (Hangul, ASCII) is a single unit, so a
`Char` list models it.  `\s` is modelled on the whitespace characters JS
matches in this codebase's strings (space, tab, CR, LF, vertical tab,
form feed).
-/

/-- The regex class `\s`. -/
def isWsChar (c : Char) : Bool :=
  c = ' ' ∨ c = '\t' ∨ c = '\n' ∨ c = '\r' ∨ c = '\x0b' ∨ c = '\x0c'

/-- `.`, `!` or `?` — the split points of `/([.!?])\s*/`. -/
def isSentenceDelim (c : Char) : Bool :=
  c = '.' ∨ c = '!' ∨ c = '?'

/-- `script.replace(/\s/g, '').length`. -/
def cleanLength (l : List Char) : Nat :=
  (l.filter (fun c => !isWsChar c)).length

/-- `script.split(/([.!?])\s*/)`: pieces and captured delimiters
interleaved; whitespace directly after a delimiter is consumed.
`skipWs` is true while inside the `\s*` that follows a delimiter. -/
def splitSentencesAux : List Char → List Char → Bool → List (List Char)
  | [], acc, _ => [acc.reverse]
  | c :: rest, acc, skipWs =>
    if skipWs ∧ isWsChar c then splitSentencesAux rest acc true
    else if isSentenceDelim c then acc.reverse :: [c] :: splitSentencesAux rest [] true
    else splitSentencesAux rest (c :: acc) false

def splitSentences (l : List Char) : List (List Char) :=
  splitSentencesAux l [] false

/-- The loop `for (i = 0; i < sentences.length; i += 2)` with
`sentence = sentences[i] + (sentences[i+1] || '')`. -/
def pairUp : List (List Char) → List (List Char)
  | [] => []
  | [a] => [a]
  | a :: b :: rest => (a ++ b) :: pairUp rest

/-- The accumulation `if (currentLength + sentenceLength <= 45) { result
+= sentence + ' '; ... } else break`. -/
def takeSentences : List (List Char) → Nat → List Char → List Char
  | [], _, result => result
  | s :: rest, currentLength, result =>
    let sentenceLength := cleanLength s
    if currentLength + sentenceLength ≤ 45 then
      takeSentences rest (currentLength + sentenceLength) (result ++ s ++ [' '])
    else result

/-- `String.prototype.trim()`. -/
def trimChars (l : List Char) : List Char :=
  ((l.dropWhile isWsChar).reverse.dropWhile isWsChar).reverse

/-- The per-scene script validator of `scriptGenerator`: scripts of
whitespace-free length at most 45 pass unchanged; longer ones keep their
leading sentences while the whitespace-free total stays within 45, or
fall back to `script.substring(0, 45).trim() + '.'` when no sentence
fits.  `sceneNumber` is only used for logging in the source. -/
def validateAndTruncateScript (script : String) (sceneNumber : Nat) : String :=
  let _ := sceneNumber
  let cleanText := script.data.filter (fun c => !isWsChar c)
  let originalLength := cleanText.length
  if originalLength ≤ 45 then script
  else
    let sentences := pairUp (splitSentences script.data)
    let result := takeSentences sentences 0 []
    if (trimChars result).length = 0 then
      String.mk (trimChars (script.data.take 45) ++ ['.'])
    else
      String.mk (trimChars result)

/-!
## Helper lemmas about the row-update operations
-/

theorem mem_updateScene_cases {db : DB} {sid : Nat} {f : Scene → Scene} {s : Scene}
    (hs : s ∈ (updateScene db sid f).scenes) :
    ∃ t, t ∈ db.scenes ∧ ((t.id = sid ∧ s = f t) ∨ (¬ t.id = sid ∧ s = t)) := by
  have hs' : s ∈ db.scenes.map (fun t => if t.id = sid then f t else t) := hs
  obtain ⟨t, ht, heq⟩ := List.mem_map.mp hs'
  refine ⟨t, ht, ?_⟩
  by_cases h : t.id = sid
  · exact Or.inl ⟨h, by rw [← heq, if_pos h]⟩
  · exact Or.inr ⟨h, by rw [← heq, if_neg h]⟩

theorem mem_updateProject_cases {db : DB} {pid : Nat} {f : Project → Project}
    {p : Project} (hp : p ∈ (updateProject db pid f).projects) :
    ∃ q, q ∈ db.projects ∧ ((q.id = pid ∧ p = f q) ∨ (¬ q.id = pid ∧ p = q)) := by
  have hp' : p ∈ db.projects.map (fun q => if q.id = pid then f q else q) := hp
  obtain ⟨q, hq, heq⟩ := List.mem_map.mp hp'
  refine ⟨q, hq, ?_⟩
  by_cases h : q.id = pid
  · exact Or.inl ⟨h, by rw [← heq, if_pos h]⟩
  · exact Or.inr ⟨h, by rw [← heq, if_neg h]⟩

theorem mem_updateRenderJobs_cases {db : DB} {sid : Nat} {eid : String}
    {f : RenderJob → RenderJob} {j : RenderJob}
    (hj : j ∈ (updateRenderJobs db sid eid f).renderJobs) :
    ∃ k, k ∈ db.renderJobs
      ∧ (((k.sceneId = sid ∧ k.externalId = eid) ∧ j = f k)
         ∨ (¬ (k.sceneId = sid ∧ k.externalId = eid) ∧ j = k)) := by
  have hj' : j ∈ db.renderJobs.map
      (fun k => if k.sceneId = sid ∧ k.externalId = eid then f k else k) := hj
  obtain ⟨k, hk, heq⟩ := List.mem_map.mp hj'
  refine ⟨k, hk, ?_⟩
  by_cases h : k.sceneId = sid ∧ k.externalId = eid
  · exact Or.inl ⟨h, by rw [← heq, if_pos h]⟩
  · exact Or.inr ⟨h, by rw [← heq, if_neg h]⟩

/-!
## Concrete databases used to evaluate the workflow functions
-/

/-- The identity storage oracle: the public URL of an upload is its
storage path. -/
def idUpload : String → String := fun p => p

def dbC1 : DB :=
  { scenes := [{ id := 1, projectId := 1, sceneNumber := 1, position := 1 }] }

def dbC2 : DB :=
  { projects := [{ id := 1, status := "script_generated" }],
    scenes := [{ id := 1, projectId := 1, sceneNumber := 1, position := 1 }] }

/-- Claim C1: a completed TTS stage run and a completed avatar polling run
are claimed to emit `tts/completed` / `avatar/completed` events.  The
embedded source refutes this: `ttsGenerator` stores the audio Asset and
sets `ttsStatus` to `completed` but sends no event at all, and
`avatarPolling`'s `done`-with-result branch stores the Asset and sets
`avatarStatus` to `completed` but also sends no event (only the D-ID
webhook route ever sends `avatar/completed`, and nothing in the
repository sends `tts/completed`), so the orchestrator's `wait-for-tts`
can only ever time out. -/
theorem c1_stage_completion_emits_no_event :
    ((ttsGenerator dbC1 1 idUpload).events = []
      ∧ (ttsGenerator dbC1 1 idUpload).result = Except.ok 1
      ∧ ((ttsGenerator dbC1 1 idUpload).db.scenes.map Scene.ttsStatus) = ["completed"])
    ∧ ((avatarPolling dbC1 1 "talk-1" 20 1
          { status := "done", resultUrl := some "https://did/result.mp4" } idUpload).events = []
      ∧ ((avatarPolling dbC1 1 "talk-1" 20 1
          { status := "done", resultUrl := some "https://did/result.mp4" } idUpload).db.scenes.map
            Scene.avatarStatus) = ["completed"]) := by
  exact ⟨⟨rfl, rfl, rfl⟩, ⟨rfl, rfl⟩⟩

/-- Claim C2: the hand-off event the orchestrator sends after the last
scene is claimed to carry the event name `videoCompositor` is subscribed
to.  The embedded source refutes this: on a single-scene project the
orchestrator's final event is named `video/compose.requested`, while
`videoCompositor`'s trigger is `video/composition.requested`, so
finishing the final scene never triggers the composition step. -/
theorem c2_composition_event_name_mismatch :
    ((sceneProcessor dbC2 1 1 none none none none).events.map Event.name)
      = ["tts/generation.requested", "avatar/generation.requested",
         "background/generation.requested", "video/compose.requested"]
    ∧ videoCompositorTriggerEvent = "video/composition.requested"
    ∧ ¬ ("video/compose.requested" = videoCompositorTriggerEvent) := by
  exact ⟨rfl, rfl, by decide⟩

def dbC3 : DB :=
  { projects := [{ id := 1, status := "script_generated" }],
    scenes := [{ id := 1, projectId := 1, sceneNumber := 1, position := 1,
                 ttsStatus := "generating" }] }

/-- Claim C3: the avatar stage is claimed never to start before the
scene's `ttsStatus` is `completed`, with a timed-out `tts/completed` wait
treated as a fatal per-scene error.  The embedded source refutes the
fatal-error part: on a scene whose `ttsStatus` is still `generating`,
running the orchestrator with the 5-minute `wait-for-tts` timing out
(`ttsWait = none`) still sends `avatar/generation.requested` and returns
success — the timeout is silently swallowed.  (The avatar stage function
itself then fails fast on the missing audio-asset prerequisite without
submitting or writing anything, which is what actually prevents a
premature submit.) -/
theorem c3_tts_wait_timeout_not_fatal :
    (((sceneProcessor dbC3 1 1 none none none none).events.map Event.name)
      = ["tts/generation.requested", "avatar/generation.requested",
         "background/generation.requested", "video/compose.requested"]
      ∧ (sceneProcessor dbC3 1 1 none none none none).result = Except.ok true
      ∧ (dbC3.scenes.map Scene.ttsStatus) = ["generating"])
    ∧ ((avatarGenerator dbC3 1 "talk-1" "https://preset.webp").result
        = Except.error "Audio asset not found for scene 1"
      ∧ (avatarGenerator dbC3 1 "talk-1" "https://preset.webp").db = dbC3
      ∧ (avatarGenerator dbC3 1 "talk-1" "https://preset.webp").events = []) := by
  exact ⟨⟨rfl, rfl, rfl⟩, ⟨rfl, rfl, rfl⟩⟩

/-- A fully completed scene of the 5-scene composition-gating project. -/
def sceneC4 (n : Nat) : Scene :=
  { id := n, projectId := 1, sceneNumber := n, position := n, duration := 8,
    ttsStatus := "completed", avatarStatus := "completed",
    backgroundStatus := "completed" }

def dbC4ok : DB :=
  { projects := [{ id := 1, status := "script_generated" }],
    scenes := [sceneC4 1, sceneC4 2, sceneC4 3, sceneC4 4, sceneC4 5] }

def dbC4bad : DB :=
  { projects := [{ id := 1, status := "script_generated" }],
    scenes := [sceneC4 1, sceneC4 2,
               { sceneC4 3 with backgroundStatus := "generating" },
               sceneC4 4, sceneC4 5] }

/-- Claim C4: the composition trigger is claimed to abort with an error
naming the incomplete scenes, and on success to set the Project status to
`scenes_processed`.  The embedded source refutes both: with scene 3 still
`generating` it aborts with the bare count `"1 scenes are not ready for
composition"` (no scene is named), and with all five scenes completed it
sets the status to `"rendering"`, not `"scenes_processed"` — even though
the repository's own render route (src/unnamed/part_003) only accepts
projects in `scenes_processed` and the repair script
fix-rendering-status.ts exists to move stuck `rendering` projects to
`scenes_processed`.  The manifest half of the claim does hold: exactly
one entry per scene, in order. -/
theorem c4_compositor_status_and_error_message :
    ((videoCompositor dbC4bad 1).result
        = Except.error "1 scenes are not ready for composition"
      ∧ (videoCompositor dbC4bad 1).db = dbC4bad)
    ∧ (((videoCompositor dbC4ok 1).db.projects.map Project.status) = ["rendering"]
      ∧ ¬ (("rendering" : String) = "scenes_processed")
      ∧ ((videoCompositor dbC4ok 1).db.projects.map
            (fun p => (p.metadata.compositionScenes.getD []).map ManifestEntry.sceneNumber))
          = [[1, 2, 3, 4, 5]]
      ∧ (videoCompositor dbC4ok 1).result = Except.ok 5) := by
  exact ⟨⟨rfl, rfl⟩, rfl, by decide, rfl, rfl⟩

/-!
## Bounded termination of the polling chains (Claim C5)
-/

theorem avatarPolling_pending_result {db : DB} {sceneId : Nat} {talkId : String}
    {maxAttempts a : Nat} {ts : TalkStatus} {upload : String → String}
    (h1 : ¬ ts.status = "done") (h2 : ¬ ts.status = "error") (h3 : a < maxAttempts) :
    (avatarPolling db sceneId talkId maxAttempts a ts upload).result
      = Except.ok false := by
  simp [avatarPolling, h1, h2, h3]

theorem avatarPolling_timeout_result {db : DB} {sceneId : Nat} {talkId : String}
    {maxAttempts a : Nat} {ts : TalkStatus} {upload : String → String}
    (h1 : ¬ ts.status = "done") (h2 : ¬ ts.status = "error") (h3 : ¬ a < maxAttempts) :
    (avatarPolling db sceneId talkId maxAttempts a ts upload).result
      = Except.error ("D-ID Talk " ++ talkId ++ " timeout after "
          ++ toString maxAttempts ++ " attempts") := by
  simp [avatarPolling, h1, h2, h3]

theorem avatarPolling_timeout_scenes {db : DB} {sceneId : Nat} {talkId : String}
    {maxAttempts a : Nat} {ts : TalkStatus} {upload : String → String}
    (h1 : ¬ ts.status = "done") (h2 : ¬ ts.status = "error") (h3 : ¬ a < maxAttempts) :
    ∀ s ∈ (avatarPolling db sceneId talkId maxAttempts a ts upload).db.scenes,
      s.id = sceneId → s.avatarStatus = "failed" := by
  intro s hs hid
  have hs' : s ∈ (updateScene (updateRenderJobs db sceneId talkId (fun j =>
      { j with status := if ts.status = "done" then "completed" else "processing",
               attempt := a })) sceneId
      (fun t => { t with avatarStatus := "failed" })).scenes := by
    simpa [avatarPolling, h1, h2, h3] using hs
  obtain ⟨t, _, h⟩ := mem_updateScene_cases hs'
  rcases h with ⟨_, rfl⟩ | ⟨hne, rfl⟩
  · rfl
  · exact absurd hid hne

theorem veoPolling_pending_result {db : DB} {sceneId : Nat} {opName : String}
    {maxAttempts a : Nat} {vs : VeoStatus} {upload : String → String}
    (h1 : vs.done = false) (h3 : a < maxAttempts) :
    (veoVideoPolling db sceneId opName maxAttempts a vs upload).result
      = Except.ok false := by
  simp [veoVideoPolling, h1, Nat.not_le_of_lt h3]

theorem veoPolling_timeout_result {db : DB} {sceneId : Nat} {opName : String}
    {maxAttempts a : Nat} {vs : VeoStatus} {upload : String → String}
    (h1 : vs.done = false) (h3 : ¬ a < maxAttempts) :
    (veoVideoPolling db sceneId opName maxAttempts a vs upload).result
      = Except.error ("Veo polling timeout after " ++ toString maxAttempts
          ++ " attempts") := by
  simp [veoVideoPolling, h1, Nat.le_of_not_lt h3]

theorem veoPolling_timeout_scenes {db : DB} {sceneId : Nat} {opName : String}
    {maxAttempts a : Nat} {vs : VeoStatus} {upload : String → String}
    (h1 : vs.done = false) (h3 : ¬ a < maxAttempts) :
    ∀ s ∈ (veoVideoPolling db sceneId opName maxAttempts a vs upload).db.scenes,
      s.id = sceneId → s.backgroundStatus = "failed" := by
  intro s hs hid
  have hs' : s ∈ (updateScene (updateRenderJobs db sceneId opName (fun j =>
      { j with status := "failed",
               errorMessage := some ("Polling timeout after "
                 ++ toString maxAttempts ++ " attempts") })) sceneId
      (fun t => { t with backgroundStatus := "failed" })).scenes := by
    simpa [veoVideoPolling, h1, Nat.le_of_not_lt h3] using hs
  obtain ⟨t, _, h⟩ := mem_updateScene_cases hs'
  rcases h with ⟨_, rfl⟩ | ⟨hne, rfl⟩
  · rfl
  · exact absurd hid hne

theorem avatarPollingChain_never_done {sceneId : Nat} {talkId : String}
    {maxAttempts : Nat} {statusAt : Nat → TalkStatus} {upload : String → String}
    (hpend : ∀ n, ¬ (statusAt n).status = "done" ∧ ¬ (statusAt n).status = "error") :
    ∀ fuel a db, a ≤ maxAttempts → maxAttempts + 1 - a ≤ fuel →
      (avatarPollingChain sceneId talkId maxAttempts statusAt upload fuel a db).checks
          = maxAttempts + 1 - a
      ∧ (∃ m, (avatarPollingChain sceneId talkId maxAttempts statusAt upload
          fuel a db).result = Except.error m)
      ∧ (∀ s ∈ (avatarPollingChain sceneId talkId maxAttempts statusAt upload
          fuel a db).db.scenes, s.id = sceneId → s.avatarStatus = "failed") := by
  intro fuel
  induction fuel with
  | zero => intro a db ha hf; omega
  | succ fuel ih =>
    intro a db ha hf
    by_cases hlt : a < maxAttempts
    · have hres := @avatarPolling_pending_result db sceneId talkId maxAttempts a
        (statusAt a) upload (hpend a).1 (hpend a).2 hlt
      have ihx := ih (a + 1)
        (avatarPolling db sceneId talkId maxAttempts a (statusAt a) upload).db
        hlt (by omega)
      simp only [avatarPollingChain, hres, isRetry, ite_true]
      refine ⟨?_, ihx.2.1, ihx.2.2⟩
      rw [ihx.1]; omega
    · have hres := @avatarPolling_timeout_result db sceneId talkId maxAttempts a
        (statusAt a) upload (hpend a).1 (hpend a).2 hlt
      have hsc := @avatarPolling_timeout_scenes db sceneId talkId maxAttempts a
        (statusAt a) upload (hpend a).1 (hpend a).2 hlt
      simp only [avatarPollingChain, hres, isRetry, ite_false]
      refine ⟨?_, ⟨_, rfl⟩, hsc⟩
      show (1 : Nat) = maxAttempts + 1 - a
      omega

theorem veoPollingChain_never_done {sceneId : Nat} {opName : String}
    {maxAttempts : Nat} {statusAt : Nat → VeoStatus} {upload : String → String}
    (hpend : ∀ n, (statusAt n).done = false) :
    ∀ fuel a db, a ≤ maxAttempts → maxAttempts + 1 - a ≤ fuel →
      (veoPollingChain sceneId opName maxAttempts statusAt upload fuel a db).checks
          = maxAttempts + 1 - a
      ∧ (∃ m, (veoPollingChain sceneId opName maxAttempts statusAt upload
          fuel a db).result = Except.error m)
      ∧ (∀ s ∈ (veoPollingChain sceneId opName maxAttempts statusAt upload
          fuel a db).db.scenes, s.id = sceneId → s.backgroundStatus = "failed") := by
  intro fuel
  induction fuel with
  | zero => intro a db ha hf; omega
  | succ fuel ih =>
    intro a db ha hf
    by_cases hlt : a < maxAttempts
    · have hres := @veoPolling_pending_result db sceneId opName maxAttempts a
        (statusAt a) upload (hpend a) hlt
      have ihx := ih (a + 1)
        (veoVideoPolling db sceneId opName maxAttempts a (statusAt a) upload).db
        hlt (by omega)
      simp only [veoPollingChain, hres, isRetry, ite_true]
      refine ⟨?_, ihx.2.1, ihx.2.2⟩
      rw [ihx.1]; omega
    · have hres := @veoPolling_timeout_result db sceneId opName maxAttempts a
        (statusAt a) upload (hpend a) hlt
      have hsc := @veoPolling_timeout_scenes db sceneId opName maxAttempts a
        (statusAt a) upload (hpend a) hlt
      simp only [veoPollingChain, hres, isRetry, ite_false]
      refine ⟨?_, ⟨_, rfl⟩, hsc⟩
      show (1 : Nat) = maxAttempts + 1 - a
      omega

/-- Claim C5: a polling loop (avatar or Veo), started at attempt 1 with
`maxAttempts = N ≥ 1` against a provider that never reports done (its
checks always come back still-processing), performs exactly N status
checks across its self-rescheduled invocations and then terminates with a
thrown timeout error, the owning Scene's stage status set to `failed` —
not N + 1 checks and not unbounded. -/
theorem c5_polling_chains_bounded (N : Nat) (hN : 1 ≤ N) (db₁ db₂ : DB)
    (sceneId₁ sceneId₂ : Nat) (talkId opName : String)
    (talkAt : Nat → TalkStatus) (veoAt : Nat → VeoStatus)
    (upload : String → String)
    (hTalk : ∀ n, ¬ (talkAt n).status = "done" ∧ ¬ (talkAt n).status = "error")
    (hVeo : ∀ n, (veoAt n).done = false) :
    ((avatarPollingChain sceneId₁ talkId N talkAt upload N 1 db₁).checks = N
      ∧ (∃ m, (avatarPollingChain sceneId₁ talkId N talkAt upload N 1 db₁).result
          = Except.error m)
      ∧ (∀ s ∈ (avatarPollingChain sceneId₁ talkId N talkAt upload N 1 db₁).db.scenes,
          s.id = sceneId₁ → s.avatarStatus = "failed"))
    ∧ ((veoPollingChain sceneId₂ opName N veoAt upload N 1 db₂).checks = N
      ∧ (∃ m, (veoPollingChain sceneId₂ opName N veoAt upload N 1 db₂).result
          = Except.error m)
      ∧ (∀ s ∈ (veoPollingChain sceneId₂ opName N veoAt upload N 1 db₂).db.scenes,
          s.id = sceneId₂ → s.backgroundStatus = "failed")) := by
  have h₁ := @avatarPollingChain_never_done sceneId₁ talkId N talkAt upload hTalk
    N 1 db₁ hN (by omega)
  have h₂ := @veoPollingChain_never_done sceneId₂ opName N veoAt upload hVeo
    N 1 db₂ hN (by omega)
  have e : N + 1 - 1 = N := by omega
  rw [e] at h₁ h₂
  exact ⟨h₁, h₂⟩

def dbC5 : DB :=
  { scenes := [{ id := 1, projectId := 1, sceneNumber := 1, position := 1,
                 avatarStatus := "processing", backgroundStatus := "processing" }] }

/-- Witness for C5: with `maxAttempts = 3` and a provider that always
answers still-processing, both chains perform exactly 3 checks, end in a
thrown timeout, and leave the scene's stage status `failed`. -/
theorem c5_polling_chains_bounded_witness :
    ((avatarPollingChain 1 "talk-w" 3 (fun _ => { status := "started" }) idUpload
        3 1 dbC5).checks = 3
      ∧ (∃ m, (avatarPollingChain 1 "talk-w" 3 (fun _ => { status := "started" })
          idUpload 3 1 dbC5).result = Except.error m)
      ∧ (∀ s ∈ (avatarPollingChain 1 "talk-w" 3 (fun _ => { status := "started" })
          idUpload 3 1 dbC5).db.scenes, s.id = 1 → s.avatarStatus = "failed"))
    ∧ ((veoPollingChain 1 "op-w" 3 (fun _ => { done := false }) idUpload
        3 1 dbC5).checks = 3
      ∧ (∃ m, (veoPollingChain 1 "op-w" 3 (fun _ => { done := false }) idUpload
          3 1 dbC5).result = Except.error m)
      ∧ (∀ s ∈ (veoPollingChain 1 "op-w" 3 (fun _ => { done := false }) idUpload
          3 1 dbC5).db.scenes, s.id = 1 → s.backgroundStatus = "failed")) := by
  have h1 : ¬ ("started" : String) = "done" := by decide
  have h2 : ¬ ("started" : String) = "error" := by decide
  exact c5_polling_chains_bounded 3 (by decide) dbC5 dbC5 1 1 "talk-w" "op-w"
    (fun _ => { status := "started" }) (fun _ => { done := false }) idUpload
    (fun _ => ⟨h1, h2⟩) (fun _ => rfl)

/-!
## Terminal-failure bookkeeping of the polling loops (Claim C6)
-/

def dbC6 : DB :=
  { scenes := [{ id := 1, projectId := 1, sceneNumber := 1, position := 1,
                 avatarStatus := "processing" }],
    renderJobs := [{ id := 1, projectId := 1, sceneId := 1, externalId := "talk-1",
                     status := "processing" }] }

/-- Counterexample to Claim C6 as stated: when the D-ID provider reports
done-with-error, `avatarPolling` reaches terminal failure (it marks the
Scene's `avatarStatus` `failed` and throws) but does **not** mark the
matching RenderJob `failed` — its `update-render-job` step wrote
`"processing"` (its status expression only distinguishes `done` from
everything else) and the error branch never touches the RenderJob, so the
row keeps status `"processing"` and no error message. -/
theorem c6_counterexample_renderjob_not_failed :
    ((avatarPolling dbC6 1 "talk-1" 20 3
        { status := "error", error := some "render failed" } idUpload).result
      = Except.error "D-ID Talk talk-1 failed: render failed")
    ∧ ((avatarPolling dbC6 1 "talk-1" 20 3
        { status := "error", error := some "render failed" } idUpload).db.scenes.map
          Scene.avatarStatus) = ["failed"]
    ∧ ((avatarPolling dbC6 1 "talk-1" 20 3
        { status := "error", error := some "render failed" } idUpload).db.renderJobs.map
          RenderJob.status) = ["processing"]
    ∧ ((avatarPolling dbC6 1 "talk-1" 20 3
        { status := "error", error := some "render failed" } idUpload).db.renderJobs.map
          RenderJob.errorMessage) = [none]
    ∧ ¬ (("processing" : String) = "failed") := by
  exact ⟨rfl, rfl, rfl, rfl, by decide⟩

theorem avatarPolling_error_outcome {db : DB} {sceneId : Nat} {talkId : String}
    {maxAttempts a : Nat} {ts : TalkStatus} {upload : String → String}
    (h₁ : ts.status = "error") :
    (avatarPolling db sceneId talkId maxAttempts a ts upload).result
        = Except.error ("D-ID Talk " ++ talkId ++ " failed: " ++ ts.error.getD "undefined")
    ∧ (avatarPolling db sceneId talkId maxAttempts a ts upload).events = []
    ∧ (∀ s ∈ (avatarPolling db sceneId talkId maxAttempts a ts upload).db.scenes,
        s.id = sceneId → s.avatarStatus = "failed")
    ∧ (∀ j ∈ (avatarPolling db sceneId talkId maxAttempts a ts upload).db.renderJobs,
        j.sceneId = sceneId → j.externalId = talkId → j.status = "processing") := by
  refine ⟨by simp [avatarPolling, h₁], by simp [avatarPolling, h₁], ?_, ?_⟩
  · intro s hs hid
    have hs' : s ∈ (updateScene (updateRenderJobs db sceneId talkId (fun j =>
        { j with status := "processing", attempt := a })) sceneId
        (fun t => { t with avatarStatus := "failed" })).scenes := by
      simpa [avatarPolling, h₁] using hs
    obtain ⟨t, _, h⟩ := mem_updateScene_cases hs'
    rcases h with ⟨_, rfl⟩ | ⟨hne, rfl⟩
    · rfl
    · exact absurd hid hne
  · intro j hj hsid heid
    have hj' : j ∈ (updateRenderJobs db sceneId talkId (fun k =>
        { k with status := "processing", attempt := a })).renderJobs := by
      simpa [avatarPolling, h₁] using hj
    obtain ⟨k, _, h⟩ := mem_updateRenderJobs_cases hj'
    rcases h with ⟨_, rfl⟩ | ⟨hne, rfl⟩
    · rfl
    · exact absurd ⟨hsid, heid⟩ hne

theorem avatarPolling_timeout_outcome {db : DB} {sceneId : Nat} {talkId : String}
    {maxAttempts a : Nat} {ts : TalkStatus} {upload : String → String}
    (h₁ : ¬ ts.status = "done") (h₂ : ¬ ts.status = "error") (h₃ : ¬ a < maxAttempts) :
    (avatarPolling db sceneId talkId maxAttempts a ts upload).events = []
    ∧ (∀ j ∈ (avatarPolling db sceneId talkId maxAttempts a ts upload).db.renderJobs,
        j.sceneId = sceneId → j.externalId = talkId → j.status = "processing") := by
  refine ⟨by simp [avatarPolling, h₁, h₂, h₃], ?_⟩
  intro j hj hsid heid
  have hj' : j ∈ (updateRenderJobs db sceneId talkId (fun k =>
      { k with status := "processing", attempt := a })).renderJobs := by
    simpa [avatarPolling, h₁, h₂, h₃] using hj
  obtain ⟨k, _, h⟩ := mem_updateRenderJobs_cases hj'
  rcases h with ⟨_, rfl⟩ | ⟨hne, rfl⟩
  · rfl
  · exact absurd ⟨hsid, heid⟩ hne

theorem veoPolling_error_outcome {db : DB} {sceneId : Nat} {opName : String}
    {maxAttempts a : Nat} {vs : VeoStatus} {upload : String → String} {e : String}
    (h₁ : vs.done = true) (h₂ : vs.error = some e) :
    (veoVideoPolling db sceneId opName maxAttempts a vs upload).result
        = Except.error ("Veo operation " ++ opName ++ " failed: " ++ e)
    ∧ (veoVideoPolling db sceneId opName maxAttempts a vs upload).events = []
    ∧ (∀ s ∈ (veoVideoPolling db sceneId opName maxAttempts a vs upload).db.scenes,
        s.id = sceneId → s.backgroundStatus = "failed")
    ∧ (∀ j ∈ (veoVideoPolling db sceneId opName maxAttempts a vs upload).db.renderJobs,
        j.sceneId = sceneId → j.externalId = opName →
          j.status = "failed" ∧ j.errorMessage = some e) := by
  refine ⟨by simp [veoVideoPolling, h₁, h₂], by simp [veoVideoPolling, h₁, h₂], ?_, ?_⟩
  · intro s hs hid
    have hs' : s ∈ (updateScene (updateRenderJobs db sceneId opName (fun j =>
        { j with status := "failed", errorMessage := some e })) sceneId
        (fun t => { t with backgroundStatus := "failed" })).scenes := by
      simpa [veoVideoPolling, h₁, h₂] using hs
    obtain ⟨t, _, h⟩ := mem_updateScene_cases hs'
    rcases h with ⟨_, rfl⟩ | ⟨hne, rfl⟩
    · rfl
    · exact absurd hid hne
  · intro j hj hsid heid
    have hj' : j ∈ (updateRenderJobs db sceneId opName (fun k =>
        { k with status := "failed", errorMessage := some e })).renderJobs := by
      simpa [veoVideoPolling, h₁, h₂] using hj
    obtain ⟨k, _, h⟩ := mem_updateRenderJobs_cases hj'
    rcases h with ⟨_, rfl⟩ | ⟨hne, rfl⟩
    · exact ⟨rfl, rfl⟩
    · exact absurd ⟨hsid, heid⟩ hne

theorem veoPolling_timeout_outcome {db : DB} {sceneId : Nat} {opName : String}
    {maxAttempts a : Nat} {vs : VeoStatus} {upload : String → String}
    (h₁ : vs.done = false) (h₃ : ¬ a < maxAttempts) :
    (veoVideoPolling db sceneId opName maxAttempts a vs upload).events = []
    ∧ (∀ j ∈ (veoVideoPolling db sceneId opName maxAttempts a vs upload).db.renderJobs,
        j.sceneId = sceneId → j.externalId = opName →
          j.status = "failed"
          ∧ j.errorMessage = some ("Polling timeout after "
              ++ toString maxAttempts ++ " attempts")) := by
  refine ⟨by simp [veoVideoPolling, h₁, Nat.le_of_not_lt h₃], ?_⟩
  intro j hj hsid heid
  have hj' : j ∈ (updateRenderJobs db sceneId opName (fun k =>
      { k with status := "failed",
               errorMessage := some ("Polling timeout after "
                 ++ toString maxAttempts ++ " attempts") })).renderJobs := by
    simpa [veoVideoPolling, h₁, Nat.le_of_not_lt h₃] using hj
  obtain ⟨k, _, h⟩ := mem_updateRenderJobs_cases hj'
  rcases h with ⟨_, rfl⟩ | ⟨hne, rfl⟩
  · exact ⟨rfl, rfl⟩
  · exact absurd ⟨hsid, heid⟩ hne

/-- Claim C6 (amended): on terminal failure — provider done-with-error or
attempt budget exhausted — each polling loop marks the owning Scene's
stage status `failed`, throws, and sends no further polling event;
`veoVideoPolling` additionally marks the matching RenderJob rows `failed`
with the human-readable error (resp. timeout) message, while
`avatarPolling` leaves its matching RenderJob rows at status
`"processing"` with no error message recorded. -/
theorem c6_terminal_failure_bookkeeping (db : DB) (sceneId : Nat)
    (talkId opName : String) (N a : Nat) (ts₁ ts₂ : TalkStatus)
    (vs₁ vs₂ : VeoStatus) (e : String) (upload : String → String)
    (h₁ : ts₁.status = "error")
    (h₂d : ¬ ts₂.status = "done") (h₂e : ¬ ts₂.status = "error")
    (hA : ¬ a < N)
    (h₃d : vs₁.done = true) (h₃e : vs₁.error = some e)
    (h₄ : vs₂.done = false) :
    ((∃ m, (avatarPolling db sceneId talkId N a ts₁ upload).result = Except.error m)
      ∧ (avatarPolling db sceneId talkId N a ts₁ upload).events = []
      ∧ (∀ s ∈ (avatarPolling db sceneId talkId N a ts₁ upload).db.scenes,
          s.id = sceneId → s.avatarStatus = "failed")
      ∧ (∀ j ∈ (avatarPolling db sceneId talkId N a ts₁ upload).db.renderJobs,
          j.sceneId = sceneId → j.externalId = talkId → j.status = "processing"))
    ∧ ((∃ m, (avatarPolling db sceneId talkId N a ts₂ upload).result = Except.error m)
      ∧ (avatarPolling db sceneId talkId N a ts₂ upload).events = []
      ∧ (∀ s ∈ (avatarPolling db sceneId talkId N a ts₂ upload).db.scenes,
          s.id = sceneId → s.avatarStatus = "failed")
      ∧ (∀ j ∈ (avatarPolling db sceneId talkId N a ts₂ upload).db.renderJobs,
          j.sceneId = sceneId → j.externalId = talkId → j.status = "processing"))
    ∧ ((∃ m, (veoVideoPolling db sceneId opName N a vs₁ upload).result = Except.error m)
      ∧ (veoVideoPolling db sceneId opName N a vs₁ upload).events = []
      ∧ (∀ s ∈ (veoVideoPolling db sceneId opName N a vs₁ upload).db.scenes,
          s.id = sceneId → s.backgroundStatus = "failed")
      ∧ (∀ j ∈ (veoVideoPolling db sceneId opName N a vs₁ upload).db.renderJobs,
          j.sceneId = sceneId → j.externalId = opName →
            j.status = "failed" ∧ j.errorMessage = some e))
    ∧ ((∃ m, (veoVideoPolling db sceneId opName N a vs₂ upload).result = Except.error m)
      ∧ (veoVideoPolling db sceneId opName N a vs₂ upload).events = []
      ∧ (∀ s ∈ (veoVideoPolling db sceneId opName N a vs₂ upload).db.scenes,
          s.id = sceneId → s.backgroundStatus = "failed")
      ∧ (∀ j ∈ (veoVideoPolling db sceneId opName N a vs₂ upload).db.renderJobs,
          j.sceneId = sceneId → j.externalId = opName →
            j.status = "failed"
            ∧ j.errorMessage = some ("Polling timeout after " ++ toString N
                ++ " attempts"))) := by
  have hA₁ := @avatarPolling_error_outcome db sceneId talkId N a ts₁ upload h₁
  have hA₂r := @avatarPolling_timeout_result db sceneId talkId N a ts₂ upload h₂d h₂e hA
  have hA₂s := @avatarPolling_timeout_scenes db sceneId talkId N a ts₂ upload h₂d h₂e hA
  have hA₂o := @avatarPolling_timeout_outcome db sceneId talkId N a ts₂ upload h₂d h₂e hA
  have hV₁ := @veoPolling_error_outcome db sceneId opName N a vs₁ upload e h₃d h₃e
  have hV₂r := @veoPolling_timeout_result db sceneId opName N a vs₂ upload h₄ hA
  have hV₂s := @veoPolling_timeout_scenes db sceneId opName N a vs₂ upload h₄ hA
  have hV₂o := @veoPolling_timeout_outcome db sceneId opName N a vs₂ upload h₄ hA
  exact ⟨⟨⟨_, hA₁.1⟩, hA₁.2.1, hA₁.2.2.1, hA₁.2.2.2⟩,
         ⟨⟨_, hA₂r⟩, hA₂o.1, hA₂s, hA₂o.2⟩,
         ⟨⟨_, hV₁.1⟩, hV₁.2.1, hV₁.2.2.1, hV₁.2.2.2⟩,
         ⟨⟨_, hV₂r⟩, hV₂o.1, hV₂s, hV₂o.2⟩⟩

def dbC6w : DB :=
  { scenes := [{ id := 1, projectId := 1, sceneNumber := 1, position := 1,
                 avatarStatus := "processing", backgroundStatus := "processing" }],
    renderJobs := [{ id := 1, projectId := 1, sceneId := 1, externalId := "talk-w",
                     status := "processing" },
                   { id := 2, projectId := 1, sceneId := 1, externalId := "op-w",
                     status := "processing" }] }

/-- Witness for the amended C6 at a concrete database, with a
done-with-error answer, a still-processing answer at the final attempt,
and the Veo analogues. -/
theorem c6_terminal_failure_bookkeeping_witness :
    ((∃ m, (avatarPolling dbC6w 1 "talk-w" 5 5
        { status := "error", error := some "boom" } idUpload).result = Except.error m)
      ∧ (avatarPolling dbC6w 1 "talk-w" 5 5
          { status := "error", error := some "boom" } idUpload).events = []
      ∧ (∀ s ∈ (avatarPolling dbC6w 1 "talk-w" 5 5
          { status := "error", error := some "boom" } idUpload).db.scenes,
          s.id = 1 → s.avatarStatus = "failed")
      ∧ (∀ j ∈ (avatarPolling dbC6w 1 "talk-w" 5 5
          { status := "error", error := some "boom" } idUpload).db.renderJobs,
          j.sceneId = 1 → j.externalId = "talk-w" → j.status = "processing"))
    ∧ ((∃ m, (avatarPolling dbC6w 1 "talk-w" 5 5
        { status := "started" } idUpload).result = Except.error m)
      ∧ (avatarPolling dbC6w 1 "talk-w" 5 5
          { status := "started" } idUpload).events = []
      ∧ (∀ s ∈ (avatarPolling dbC6w 1 "talk-w" 5 5
          { status := "started" } idUpload).db.scenes,
          s.id = 1 → s.avatarStatus = "failed")
      ∧ (∀ j ∈ (avatarPolling dbC6w 1 "talk-w" 5 5
          { status := "started" } idUpload).db.renderJobs,
          j.sceneId = 1 → j.externalId = "talk-w" → j.status = "processing"))
    ∧ ((∃ m, (veoVideoPolling dbC6w 1 "op-w" 5 5
        { done := true, error := some "policy" } idUpload).result = Except.error m)
      ∧ (veoVideoPolling dbC6w 1 "op-w" 5 5
          { done := true, error := some "policy" } idUpload).events = []
      ∧ (∀ s ∈ (veoVideoPolling dbC6w 1 "op-w" 5 5
          { done := true, error := some "policy" } idUpload).db.scenes,
          s.id = 1 → s.backgroundStatus = "failed")
      ∧ (∀ j ∈ (veoVideoPolling dbC6w 1 "op-w" 5 5
          { done := true, error := some "policy" } idUpload).db.renderJobs,
          j.sceneId = 1 → j.externalId = "op-w" →
            j.status = "failed" ∧ j.errorMessage = some "policy"))
    ∧ ((∃ m, (veoVideoPolling dbC6w 1 "op-w" 5 5
        { done := false } idUpload).result = Except.error m)
      ∧ (veoVideoPolling dbC6w 1 "op-w" 5 5 { done := false } idUpload).events = []
      ∧ (∀ s ∈ (veoVideoPolling dbC6w 1 "op-w" 5 5
          { done := false } idUpload).db.scenes,
          s.id = 1 → s.backgroundStatus = "failed")
      ∧ (∀ j ∈ (veoVideoPolling dbC6w 1 "op-w" 5 5
          { done := false } idUpload).db.renderJobs,
          j.sceneId = 1 → j.externalId = "op-w" →
            j.status = "failed"
            ∧ j.errorMessage = some ("Polling timeout after " ++ toString 5
                ++ " attempts"))) := by
  have hd : ¬ ("started" : String) = "done" := by decide
  have he : ¬ ("started" : String) = "error" := by decide
  exact c6_terminal_failure_bookkeeping dbC6w 1 "talk-w" "op-w" 5 5
    { status := "error", error := some "boom" } { status := "started" }
    { done := true, error := some "policy" } { done := false } "policy" idUpload
    rfl hd he (by decide) rfl rfl rfl

/-!
## Script validation (Claim C7)
-/

theorem cleanLength_append (l₁ l₂ : List Char) :
    cleanLength (l₁ ++ l₂) = cleanLength l₁ + cleanLength l₂ := by
  simp [cleanLength, List.filter_append]

theorem cleanLength_space : cleanLength [' '] = 0 := by decide

theorem takeSentences_cleanLength :
    ∀ (ss : List (List Char)) (cur : Nat) (acc : List Char),
      cleanLength acc = cur → cur ≤ 45 →
        cleanLength (takeSentences ss cur acc) ≤ 45 := by
  intro ss
  induction ss with
  | nil =>
    intro cur acc hacc hle
    simp only [takeSentences]
    omega
  | cons s rest ih =>
    intro cur acc hacc hle
    simp only [takeSentences]
    by_cases h : cur + cleanLength s ≤ 45
    · rw [if_pos h]
      refine ih (cur + cleanLength s) (acc ++ s ++ [' ']) ?_ h
      rw [cleanLength_append, cleanLength_append, cleanLength_space, hacc]
      omega
    · rw [if_neg h]
      omega

theorem cleanLength_reverse (l : List Char) :
    cleanLength l.reverse = cleanLength l := by
  simp [cleanLength, List.filter_reverse]

theorem cleanLength_dropWhile_le (p : Char → Bool) (l : List Char) :
    cleanLength (l.dropWhile p) ≤ cleanLength l :=
  ((List.dropWhile_sublist p).filter _).length_le

theorem cleanLength_trimChars_le (l : List Char) :
    cleanLength (trimChars l) ≤ cleanLength l := by
  unfold trimChars
  calc cleanLength ((l.dropWhile isWsChar).reverse.dropWhile isWsChar).reverse
      = cleanLength ((l.dropWhile isWsChar).reverse.dropWhile isWsChar) :=
        cleanLength_reverse _
    _ ≤ cleanLength (l.dropWhile isWsChar).reverse := cleanLength_dropWhile_le _ _
    _ = cleanLength (l.dropWhile isWsChar) := cleanLength_reverse _
    _ ≤ cleanLength l := cleanLength_dropWhile_le _ _

/-- Claim C7 (amended): the only script validation `scriptGenerator`
performs is the 45-character (whitespace-excluded) budget check of
`validateAndTruncateScript` at scene-creation time.  A within-budget
script — including one containing greetings, meta-phrases or
parentheticals — is returned unchanged; an over-budget script is
shortened locally by keeping its leading sentences while their
whitespace-free total stays within 45 characters, or hard-truncated to
its first 45 characters plus an appended period when no leading sentence
fits.  No secondary model call and no forbidden-content rejection
exist. -/
theorem c7_script_validation_budget_only (script : String) (n : Nat) :
    (cleanLength script.data ≤ 45 → validateAndTruncateScript script n = script)
    ∧ (45 < cleanLength script.data →
        cleanLength (validateAndTruncateScript script n).data ≤ 45
        ∨ validateAndTruncateScript script n
            = String.mk (trimChars (script.data.take 45) ++ ['.'])) := by
  constructor
  · intro h
    have h' : (script.data.filter (fun c => !isWsChar c)).length ≤ 45 := h
    simp [validateAndTruncateScript, h']
  · intro h
    have h' : ¬ (script.data.filter (fun c => !isWsChar c)).length ≤ 45 := by
      have h45 : 45 < (script.data.filter (fun c => !isWsChar c)).length := h
      omega
    by_cases hz :
        (trimChars (takeSentences (pairUp (splitSentences script.data)) 0 [])).length = 0
    · right
      simp [validateAndTruncateScript, h', hz]
    · left
      have hv : validateAndTruncateScript script n
          = String.mk (trimChars (takeSentences (pairUp (splitSentences script.data)) 0 [])) := by
        simp [validateAndTruncateScript, h', hz]
      rw [hv]
      have hb : cleanLength (takeSentences (pairUp (splitSentences script.data)) 0 []) ≤ 45 :=
        takeSentences_cleanLength _ 0 [] rfl (by omega)
      exact le_trans (cleanLength_trimChars_le _) hb

/-- Counterexample to Claim C7 as stated: the claim requires scripts
containing forbidden content classes (greetings, meta-phrases,
parenthetical asides) to be rejected, failing the generation step with an
enumerated list of violating scenes.  The source has no such check: a
within-budget script consisting of a greeting and a parenthetical aside
passes `validateAndTruncateScript` unchanged and the scene is created
with it; nothing in `generateScript`'s output handling inspects content
either (the prohibitions live only in the prompt text sent to the
model). -/
theorem c7_counterexample_greeting_accepted :
    strIncludes "안녕하세요. (인사를 드립니다) 반갑습니다." "안녕하세요" = true
    ∧ validateAndTruncateScript "안녕하세요. (인사를 드립니다) 반갑습니다." 1
        = "안녕하세요. (인사를 드립니다) 반갑습니다." := by
  exact ⟨by decide, by decide⟩

/-- Witness for the amended C7: a compliant script passes unchanged, and
an over-budget script is shortened to within the 45-character budget. -/
theorem c7_script_validation_budget_only_witness :
    (cleanLength ("짧은 대본입니다." : String).data ≤ 45
      ∧ validateAndTruncateScript "짧은 대본입니다." 1 = "짧은 대본입니다.")
    ∧ (45 < cleanLength (String.mk (List.replicate 60 '가')).data
      ∧ (cleanLength (validateAndTruncateScript (String.mk (List.replicate 60 '가')) 2).data ≤ 45
        ∨ validateAndTruncateScript (String.mk (List.replicate 60 '가')) 2
            = String.mk (trimChars ((String.mk (List.replicate 60 '가')).data.take 45)
                ++ ['.']))) := by
  refine ⟨⟨by decide, ?_⟩, ⟨by decide, ?_⟩⟩
  · exact (c7_script_validation_budget_only "짧은 대본입니다." 1).1 (by decide)
  · exact (c7_script_validation_budget_only (String.mk (List.replicate 60 '가')) 2).2
      (by decide)

/-!
## Avatar-design graceful degradation (Claim C8)
-/

/-- Claim C8: a quota-exceeded (429) or model-not-found (404) error from
custom avatar-design generation flips the Project's avatar-design status
to `failed` with the `fallbackToPreset` marker in its metadata (the run
itself throws, and sends no event), and scene processing still proceeds:
the orchestrator's bounded `avatar-design/completed` wait timing out
(`avatarDesignWait = none`) does not fail the run — it continues into the
TTS → avatar → background stage triggers using the preset avatar. -/
theorem c8_avatar_design_fallback (db db₂ : DB) (projectId pid₂ sceneId : Nat)
    (p : Project) (e : GenError) (upload : String → String) (sc : Scene)
    (pr : Project)
    (hp : findProject db projectId = some p)
    (hmode : p.avatarDesignMode = "custom")
    (hset : p.hasAvatarDesignSettings = true)
    (hcode : e.code = some 429 ∨ e.code = some 404)
    (hs : findScene db₂ sceneId = some sc)
    (hsp : findProject db₂ sc.projectId = some pr) :
    ((∃ m, (avatarDesignGenerator db projectId (Except.error e) upload).result
        = Except.error m)
      ∧ (avatarDesignGenerator db projectId (Except.error e) upload).events = []
      ∧ (∀ q ∈ (avatarDesignGenerator db projectId (Except.error e) upload).db.projects,
          q.id = projectId →
            q.avatarDesignStatus = "failed" ∧ q.metadata.fallbackToPreset = true))
    ∧ ((∃ b, (sceneProcessor db₂ pid₂ sceneId none none none none).result
        = Except.ok b)
      ∧ ((sceneProcessor db₂ pid₂ sceneId none none none none).events.map
          Event.name).take 3
          = ["tts/generation.requested", "avatar/generation.requested",
             "background/generation.requested"]) := by
  constructor
  · rcases hcode with hc | hc
    · refine ⟨by simp [avatarDesignGenerator, hp, hmode, hset, hc],
        by simp [avatarDesignGenerator, hp, hmode, hset, hc], ?_⟩
      intro q hq hid
      simp only [avatarDesignGenerator, hp, hmode, hset, hc] at hq
      rw [if_neg (by simp), if_neg (by simp [hset]), if_pos (by simp)] at hq
      obtain ⟨r, _, h⟩ := mem_updateProject_cases hq
      rcases h with ⟨_, rfl⟩ | ⟨hne, rfl⟩
      · exact ⟨rfl, rfl⟩
      · exact absurd hid hne
    · refine ⟨by simp [avatarDesignGenerator, hp, hmode, hset, hc],
        by simp [avatarDesignGenerator, hp, hmode, hset, hc], ?_⟩
      intro q hq hid
      simp only [avatarDesignGenerator, hp, hmode, hset, hc] at hq
      rw [if_neg (by simp), if_neg (by simp [hset]), if_pos (by simp)] at hq
      obtain ⟨r, _, h⟩ := mem_updateProject_cases hq
      rcases h with ⟨_, rfl⟩ | ⟨hne, rfl⟩
      · exact ⟨rfl, rfl⟩
      · exact absurd hid hne
  · constructor
    · simp only [sceneProcessor, hs, hsp]
      split
      · exact ⟨true, rfl⟩
      · exact ⟨true, rfl⟩
    · simp only [sceneProcessor, hs, hsp]
      split
      · rfl
      · rfl

def dbC8 : DB :=
  { projects := [{ id := 1, status := "draft", avatarDesignMode := "custom",
                   avatarDesignStatus := "generating" }] }

def dbC8sp : DB :=
  { projects := [{ id := 1, status := "script_generated",
                   avatarDesignMode := "custom", avatarDesignStatus := "failed",
                   metadata := { fallbackToPreset := true } }],
    scenes := [{ id := 1, projectId := 1, sceneNumber := 1, position := 1 }] }

/-- Witness for C8: a quota-exceeded (code 429) design failure on a
custom-mode project, followed by an orchestrator run whose avatar-design
wait times out, at concrete databases. -/
theorem c8_avatar_design_fallback_witness :
    ((∃ m, (avatarDesignGenerator dbC8 1
        (Except.error { message := "Quota exceeded for model", code := some 429 })
        idUpload).result = Except.error m)
      ∧ (avatarDesignGenerator dbC8 1
          (Except.error { message := "Quota exceeded for model", code := some 429 })
          idUpload).events = []
      ∧ (∀ q ∈ (avatarDesignGenerator dbC8 1
          (Except.error { message := "Quota exceeded for model", code := some 429 })
          idUpload).db.projects,
          q.id = 1 → q.avatarDesignStatus = "failed"
            ∧ q.metadata.fallbackToPreset = true))
    ∧ ((∃ b, (sceneProcessor dbC8sp 1 1 none none none none).result = Except.ok b)
      ∧ ((sceneProcessor dbC8sp 1 1 none none none none).events.map
          Event.name).take 3
          = ["tts/generation.requested", "avatar/generation.requested",
             "background/generation.requested"]) :=
  c8_avatar_design_fallback dbC8 dbC8sp 1 1 1
    { id := 1, status := "draft", avatarDesignMode := "custom",
      avatarDesignStatus := "generating" }
    { message := "Quota exceeded for model", code := some 429 } idUpload
    { id := 1, projectId := 1, sceneNumber := 1, position := 1 }
    { id := 1, status := "script_generated", avatarDesignMode := "custom",
      avatarDesignStatus := "failed", metadata := { fallbackToPreset := true } }
    rfl rfl rfl (Or.inl rfl) rfl rfl

/-!
## Webhook idempotency and authorization (Claims C9, C10)
-/

/-- The avatar-video Assets recorded for one scene. -/
def avatarAssetCount (db : DB) (sid : Nat) : Nat :=
  (db.assets.filter (fun a => a.kind = "avatar_video" ∧ a.sceneId = some sid)).length

def dbC9 : DB :=
  { projects := [{ id := 1, status := "script_generated" }],
    scenes := [{ id := 1, projectId := 1, sceneNumber := 1, position := 1,
                 avatarStatus := "processing" }],
    renderJobs := [{ id := 1, projectId := 1, sceneId := 1, externalId := "talk-9",
                     traceId := some "talk-9", status := "processing",
                     paramsSceneId := some 1 }] }

def webhookDoneBody : WebhookBody :=
  { id := "talk-9", status := "done", resultUrl := some "https://did/out.mp4" }

/-- The database after the first authorized `done` delivery for talk-9. -/
def dbC9a : DB := (didWebhookPOST dbC9 (some "secret") "secret" webhookDoneBody).1

/-- The database after the identical second delivery. -/
def dbC9b : DB := (didWebhookPOST dbC9a (some "secret") "secret" webhookDoneBody).1

/-- Claim C9: receiving a stage-completion signal for the same Scene more
than once is claimed not to create a second Asset.  The embedded webhook
handler refutes this: after a first `done` delivery completes the scene
(`avatarStatus = "completed"`, one avatar-video Asset), delivering the
identical webhook again creates a second avatar-video Asset for the same
scene — the `done` branch has no already-completed guard before
`prisma.asset.create` (and `avatarPolling`'s completion branch creates
its Asset unconditionally too, as the spec's §9 open question already
suspects). -/
theorem c9_duplicate_delivery_double_creates_assets :
    avatarAssetCount dbC9 1 = 0
    ∧ avatarAssetCount dbC9a 1 = 1
    ∧ (dbC9a.scenes.map Scene.avatarStatus) = ["completed"]
    ∧ (didWebhookPOST dbC9a (some "secret") "secret" webhookDoneBody).2.2
        = HttpResponse.received
    ∧ avatarAssetCount dbC9b 1 = 2 := by
  exact ⟨rfl, rfl, rfl, rfl, rfl⟩

/-- Claim C10: a webhook POST with a missing or non-matching bearer token
is answered 401 and a correctly authorized request whose job id resolves
to no RenderJob is answered 404; in both cases the database is returned
unchanged and no event is emitted. -/
theorem c10_webhook_auth_and_missing_job (db : DB) (token : Option String)
    (expectedToken : String) (body : WebhookBody) :
    ((token = none ∨ (∃ t, token = some t ∧ ¬ t = expectedToken)) →
      didWebhookPOST db token expectedToken body
        = (db, [], HttpResponse.unauthorized))
    ∧ (¬ expectedToken = "" → token = some expectedToken →
      db.renderJobs.find? (fun j => j.traceId = some body.id) = none →
        didWebhookPOST db token expectedToken body
          = (db, [], HttpResponse.notFound)) := by
  constructor
  · intro h
    rcases h with rfl | ⟨t, rfl, hne⟩
    · rfl
    · simp [didWebhookPOST, hne]
  · intro hexp htok hfind
    subst htok
    simp [didWebhookPOST, hexp, hfind]

def dbC10 : DB :=
  { renderJobs := [{ id := 1, projectId := 1, sceneId := 1, externalId := "talk-10",
                     traceId := some "talk-10", status := "processing",
                     paramsSceneId := some 1 }] }

/-- Witness for C10: a wrong bearer token is answered 401, and an
authorized delivery for an unknown job id is answered 404, both leaving
the concrete database untouched with no events. -/
theorem c10_webhook_auth_and_missing_job_witness :
    didWebhookPOST dbC10 (some "wrong") "secret"
        { id := "talk-10", status := "done" }
      = (dbC10, [], HttpResponse.unauthorized)
    ∧ didWebhookPOST dbC10 (some "secret") "secret"
        { id := "missing", status := "done" }
      = (dbC10, [], HttpResponse.notFound) := by
  constructor
  · exact (c10_webhook_auth_and_missing_job dbC10 (some "wrong") "secret"
      { id := "talk-10", status := "done" }).1
      (Or.inr ⟨"wrong", rfl, by decide⟩)
  · exact (c10_webhook_auth_and_missing_job dbC10 (some "secret") "secret"
      { id := "missing", status := "done" }).2 (by decide) rfl rfl

end GiniAI
